import Mathlib

/-!
# awa5pp: the instruction decoder and the execution engine

A shallow embedding of `src/main.cpp`.

* `std::string_view` is a `List Char`; positions are `Nat`.
* `uint8_t` values are `Nat` reduced `% 256`; `int8_t` and `int32_t` values are
  `Int` reduced to their two's-complement range (`toInt8`, `wrapInt32`).
* `std::vector` is a `List` whose last element is `back()`.
* An operation whose C++ behaviour is undefined (`back()` of an empty vector, an
  index outside a container, division by zero) yields `none`.
-/

namespace Awa5pp

/-! ## Commands -/

/-- The constant `CommandBits`. -/
def CommandBits : Nat := 5

/-- The variant `CommandObject`: one alternative per command struct, in the
order of the variant's template arguments.  A `ParameterizedCommand` carries
its `parameter` (`int8_t` for `Blow`, `uint8_t` for the others). -/
inductive CommandObject where
  | NoOp
  | Print
  | PrintNum
  | Read
  | ReadNum
  | Blow (parameter : Int)
  | Submerge (parameter : Nat)
  | Pop
  | Duplicate
  | Surround (parameter : Nat)
  | Merge
  | Add
  | Subtract
  | Multiply
  | Divide
  | Count
  | Label (parameter : Nat)
  | Jump (parameter : Nat)
  | EqualTo
  | LessThan
  | GreaterThan
  | Terminate
  deriving DecidableEq, Repr

namespace CommandObject

/-- The template argument `Value` of each command struct (`T::VALUE`). -/
def VALUE : CommandObject → Nat
  | NoOp => 0x0
  | Print => 0x1
  | PrintNum => 0x2
  | Read => 0x3
  | ReadNum => 0x4
  | Blow _ => 0x5
  | Submerge _ => 0x6
  | Pop => 0x7
  | Duplicate => 0x8
  | Surround _ => 0x9
  | Merge => 0xA
  | Add => 0xB
  | Subtract => 0xC
  | Multiply => 0xD
  | Divide => 0xE
  | Count => 0xF
  | Label _ => 0x10
  | Jump _ => 0x11
  | EqualTo => 0x12
  | LessThan => 0x13
  | GreaterThan => 0x14
  | Terminate => 0x1F

/-- The static member `T::HAS_PARAMETER`: `true` for the structs derived from
`ParameterizedCommand`. -/
def HAS_PARAMETER : CommandObject → Bool
  | Blow _ => true
  | Submerge _ => true
  | Surround _ => true
  | Label _ => true
  | Jump _ => true
  | _ => false

end CommandObject

open CommandObject

/-- The alternatives of `CommandObject` in variant order, each value-initialised
(`std::variant_alternative_t<I, CommandObject>{}`: a parameter is zero). -/
def alternatives : List CommandObject :=
  [NoOp, Print, PrintNum, Read,
   ReadNum, Blow 0, Submerge 0, Pop,
   Duplicate, Surround 0, Merge, Add,
   Subtract, Multiply, Divide, Count,
   Label 0, Jump 0, EqualTo, LessThan,
   GreaterThan, Terminate]

/-- The recursion `CommandFromInteger<I>` over the alternatives from index `I`
on: the first alternative whose `VALUE` equals `value`, `NoOp{}` past the end. -/
def CommandFromIntegerFrom : List CommandObject → Nat → CommandObject
  | [], _ => NoOp
  | alt :: rest, value =>
    if alt.VALUE = value then alt else CommandFromIntegerFrom rest value

/-- The function `CommandFromInteger` (`I = 0`). -/
def CommandFromInteger (value : Nat) : CommandObject :=
  CommandFromIntegerFrom alternatives value

/-- The function `HasParameter`: visits with `ParameterGetterVisitor`. -/
def HasParameter (command : CommandObject) : Bool :=
  command.HAS_PARAMETER

/-- The function `HasSignedParameter`: visits with `IsParameterSignedVisitor`;
`std::is_signed_v` of the parameter type holds for `int8_t` (`Blow`) only. -/
def HasSignedParameter (command : CommandObject) : Bool :=
  match command with
  | Blow _ => true
  | _ => false

/-- Conversion of an `int32_t` to `int8_t`. -/
def toInt8 (x : Int) : Int := (x + 128) % 256 - 128

/-- Conversion of an `int32_t` to `uint8_t`. -/
def toUInt8 (x : Int) : Nat := (x % 256).toNat

/-- Reduction of an integer to the range of `int32_t` (two's complement). -/
def wrapInt32 (x : Int) : Int := (x + 2147483648) % 4294967296 - 2147483648

/-- The function `SetParameter` at `T = int32_t`: visits with
`ParameterSetterVisitor`, which assigns `command.parameter = value` when the
alternative has a parameter (converting to the parameter's type). -/
def SetParameter (command : CommandObject) (parameter : Int) : CommandObject :=
  match command with
  | Blow _ => Blow (toInt8 parameter)
  | Submerge _ => Submerge (toUInt8 parameter)
  | Surround _ => Surround (toUInt8 parameter)
  | Label _ => Label (toUInt8 parameter)
  | Jump _ => Jump (toUInt8 parameter)
  | other => other

/-! ## The decoder -/

/-- The constant `SENTINEL` of `ReadAwaTalk`. -/
def SENTINEL : List Char := ['a', 'w', 'a']

/-- The call `std::search(line.begin(), line.end(), pat.begin(), pat.end())`, as
the offset of the returned iterator from `line.begin()`: the first position at
which `pat` occurs, `line.size()` (the end iterator) when it occurs nowhere. -/
def search : List Char → List Char → Nat
  | [], _ => 0
  | c :: rest, pat =>
    if pat.isPrefixOf (c :: rest) then 0 else search rest pat + 1

/-- The call `line.substr(pos, n)` for `pos <= line.size()`. -/
def substr (line : List Char) (pos n : Nat) : List Char :=
  (line.drop pos).take n

/-- The first loop of `ReadAwaTalk`, on the state `(i, bits, command)`.  Every
branch of the body moves `i` itself and the loop header then adds one more.
The first argument bounds the number of iterations; `line.size()` is enough,
since every iteration moves `i` forward. -/
def ReadAwaTalk.commandLoop (line : List Char) :
    Nat → Nat → Nat → Nat → Nat × Nat × Nat
  | 0, i, bits, command => (i, bits, command)
  | fuel + 1, i, bits, command =>
    if i < line.length ∧ bits < CommandBits then
      if substr line i 2 = ['w', 'a'] then
        ReadAwaTalk.commandLoop line fuel (i + 2 + 1) (bits + 1)
          ((command * 2 % 256 + 1) % 256)
      else if substr line i 3 = ['a', 'w', 'a'] then
        ReadAwaTalk.commandLoop line fuel (i + 4 + 1) (bits + 1) (command * 2 % 256)
      else
        ReadAwaTalk.commandLoop line fuel (i + 1 + 1) bits command
    else (i, bits, command)

/-- The second loop of `ReadAwaTalk`, on the state `(i, parameter, isNegative)`
(the counter `bits` is not read again and is left out).  `parameter` is an
`int32_t`. -/
def ReadAwaTalk.parameterLoop (line : List Char) (code : CommandObject) :
    Nat → Nat → Int → Bool → Nat × Int × Bool
  | 0, i, parameter, isNegative => (i, parameter, isNegative)
  | fuel + 1, i, parameter, isNegative =>
    if i < line.length then
      if substr line i 2 = ['w', 'a'] then
        if HasSignedParameter code then
          ReadAwaTalk.parameterLoop line code fuel (i + 2 + 1) parameter true
        else
          ReadAwaTalk.parameterLoop line code fuel (i + 2 + 1)
            (wrapInt32 (wrapInt32 (parameter * 2) + 1)) isNegative
      else if substr line i 3 = ['a', 'w', 'a'] then
        ReadAwaTalk.parameterLoop line code fuel (i + 4 + 1)
          (wrapInt32 (parameter * 2)) isNegative
      else
        ReadAwaTalk.parameterLoop line code fuel (i + 1 + 1) parameter isNegative
    else (i, parameter, isNegative)

/-- The function `ReadAwaTalk`. -/
def ReadAwaTalk (line : List Char) : CommandObject :=
  let first := search line SENTINEL
  if first = line.length then NoOp
  else
    let scan := ReadAwaTalk.commandLoop line line.length (first + 3) 0 0
    let code := CommandFromInteger scan.2.2
    if !HasParameter code then code
    else
      let rest := ReadAwaTalk.parameterLoop line code line.length scan.1 0 false
      let negated := wrapInt32 (rest.2.1 * -(if rest.2.2 then 1 else 0))
      SetParameter code negated

/-! ## The abyss -/

/-- The type `Bubble` (`int32_t`). -/
abbrev Bubble := Int

/-- The type `DoubleBubble` (`std::vector<Bubble>`). -/
abbrev DoubleBubble := List Bubble

/-- The element type of `BubbleAbyss`, `std::variant<DoubleBubble, Bubble>`. -/
inductive AbyssEntry where
  | doubleBubble (bubbles : DoubleBubble)
  | bubble (value : Bubble)
  deriving DecidableEq, Repr

/-- The type `BubbleAbyss`; `back()` is the last element of the list. -/
abbrev BubbleAbyss := List AbyssEntry

/-- The type `Program`. -/
abbrev Program := List CommandObject

/-- The table `awascii` of `GetAwascii`. -/
def awascii : List Char :=
  "AWawJELYHOSIUMjelyhosiumPCNTpcntBDFGRbdfgr0123456789 .,!'()~_/;\n".toList

/-- The function `GetAwascii`; `none` when `awascii[bubble]` indexes outside
the table. -/
def GetAwascii (bubble : Bubble) : Option Char :=
  if bubble < 0 ∨ bubble > (awascii.length : Int) then some 'X'
  else awascii[bubble.toNat]?

/-- The constant `std::numeric_limits<size_t>::max()`. -/
def SIZE_MAX : Nat := 18446744073709551615

/-- The constant `Interpreter::NUM_LABELS`. -/
def NUM_LABELS : Nat := 32

/-- The class `Interpreter`: its data members, and `cout` for the characters
written to `std::cout` so far. -/
structure Interpreter where
  bubbleAbyss : BubbleAbyss
  program : Program
  labels : List Nat
  programCounter : Nat
  needsTermination : Bool
  cout : List Char
  deriving DecidableEq, Repr

namespace Interpreter

/-- The constructor `Interpreter(Program)`: empty abyss, every label
`SIZE_MAX`, program counter 0, no termination requested. -/
def new (pProgram : Program) : Interpreter :=
  { bubbleAbyss := []
    program := pProgram
    labels := List.replicate NUM_LABELS SIZE_MAX
    programCounter := 0
    needsTermination := false
    cout := [] }

/-- The handler `operator()(NoOp)`. -/
def NoOp (self : Interpreter) : Option Interpreter :=
  some self

/-- The loop of `PrintVisitor::operator()(const DoubleBubble&)`. -/
def Print.loop : List Bubble → Option (List Char)
  | [] => some []
  | bubble :: rest =>
    match GetAwascii bubble, Print.loop rest with
    | some c, some tail => some (c :: tail)
    | _, _ => none

/-- The handler `operator()(Print)`. -/
def Print (self : Interpreter) : Option Interpreter :=
  match self.bubbleAbyss.getLast? with
  | none => none
  | some (.bubble bubble) =>
    match GetAwascii bubble with
    | none => none
    | some c =>
      some { self with cout := self.cout ++ [c], bubbleAbyss := self.bubbleAbyss.dropLast }
  | some (.doubleBubble bubbles) =>
    match Print.loop bubbles with
    | none => none
    | some cs =>
      some { self with cout := self.cout ++ cs, bubbleAbyss := self.bubbleAbyss.dropLast }

/-- The text `std::cout << bubble` writes for an `int32_t`. -/
def decimal (bubble : Bubble) : List Char :=
  if bubble < 0 then '-' :: (Nat.repr bubble.natAbs).toList
  else (Nat.repr bubble.natAbs).toList

/-- The loop of `PrintNumVisitor::operator()(const DoubleBubble&)` from index
`i` on, `rest` being the elements from `i`; `std::abs` of the least `int32_t`
is undefined. -/
def PrintNum.loop : List Bubble → Option (List Char)
  | [] => some []
  | bubble :: rest =>
    if bubble = -2147483648 then none
    else
      match PrintNum.loop rest with
      | none => none
      | some tail =>
        some ((if bubble < 0 then ['~'] else []) ++ (Nat.repr bubble.natAbs).toList
          ++ (if rest ≠ [] then [' '] else []) ++ tail)

/-- The handler `operator()(PrintNum)`. -/
def PrintNum (self : Interpreter) : Option Interpreter :=
  match self.bubbleAbyss.getLast? with
  | none => none
  | some (.bubble bubble) =>
    some { self with cout := self.cout ++ decimal bubble,
                     bubbleAbyss := self.bubbleAbyss.dropLast }
  | some (.doubleBubble bubbles) =>
    match PrintNum.loop bubbles with
    | none => none
    | some cs =>
      some { self with cout := self.cout ++ cs, bubbleAbyss := self.bubbleAbyss.dropLast }

/-- The handler `operator()(Read)`. -/
def Read (self : Interpreter) : Option Interpreter :=
  some self

/-- The handler `operator()(ReadNum)`. -/
def ReadNum (self : Interpreter) : Option Interpreter :=
  some self

/-- The handler `operator()(Blow)`. -/
def Blow (self : Interpreter) (parameter : Int) : Option Interpreter :=
  some { self with bubbleAbyss := self.bubbleAbyss ++ [.bubble parameter] }

/-- The call `std::rotate(v.rbegin(), v.rbegin() + 1, v.rbegin() + count)`: the
top `count` elements, seen from the top down, are rotated left by one.  The
iterators are valid only for `1 <= count <= v.size()`. -/
def rotateTop (v : BubbleAbyss) (count : Nat) : Option BubbleAbyss :=
  if 1 ≤ count ∧ count ≤ v.length then
    some (((v.reverse.take count).rotate 1 ++ v.reverse.drop count).reverse)
  else none

/-- The handler `operator()(Submerge)`; `bubbleAbyss.size() - 1` is computed
in `size_t`. -/
def Submerge (self : Interpreter) (parameter : Nat) : Option Interpreter :=
  if parameter > (self.bubbleAbyss.length + SIZE_MAX) % (SIZE_MAX + 1) ∨ parameter = 0 then
    match rotateTop self.bubbleAbyss self.bubbleAbyss.length with
    | none => none
    | some abyss => some { self with bubbleAbyss := abyss }
  else
    match rotateTop self.bubbleAbyss parameter with
    | none => none
    | some abyss => some { self with bubbleAbyss := abyss }

/-- The handler `operator()(Pop)`. -/
def Pop (self : Interpreter) : Option Interpreter :=
  match self.bubbleAbyss.getLast? with
  | none => none
  | some (.bubble _) =>
    some { self with bubbleAbyss := self.bubbleAbyss.dropLast }
  | some (.doubleBubble bubbles) =>
    some { self with bubbleAbyss := self.bubbleAbyss.dropLast ++ bubbles.map .bubble }

/-- The handler `operator()(Duplicate)`: `back` is move-constructed from the
top element, which leaves a moved-from `DoubleBubble` empty, and is then
pushed. -/
def Duplicate (self : Interpreter) : Option Interpreter :=
  match self.bubbleAbyss.getLast? with
  | none => none
  | some (.bubble value) =>
    some { self with bubbleAbyss := self.bubbleAbyss ++ [.bubble value] }
  | some (.doubleBubble bubbles) =>
    some { self with bubbleAbyss :=
      self.bubbleAbyss.dropLast ++ [.doubleBubble [], .doubleBubble bubbles] }

/-- The scalar contents an element contributes to a visitor that collects
bubbles (`SurroundVisitor`, `MergeVisitor`). -/
def contents : AbyssEntry → DoubleBubble
  | .bubble value => [value]
  | .doubleBubble bubbles => bubbles

/-- The loop of `operator()(Surround)` with `count` iterations left. -/
def Surround.loop : Nat → BubbleAbyss → DoubleBubble → Option (BubbleAbyss × DoubleBubble)
  | 0, abyss, newBubble => some (abyss, newBubble)
  | count + 1, abyss, newBubble =>
    match abyss.getLast? with
    | none => none
    | some back => Surround.loop count abyss.dropLast (newBubble ++ contents back)

/-- The handler `operator()(Surround)`. -/
def Surround (self : Interpreter) (parameter : Nat) : Option Interpreter :=
  match Surround.loop parameter self.bubbleAbyss [] with
  | none => none
  | some (abyss, newBubble) =>
    some { self with bubbleAbyss := abyss ++ [.doubleBubble newBubble] }

/-- The handler `operator()(Merge)`. -/
def Merge (self : Interpreter) : Option Interpreter :=
  match self.bubbleAbyss.getLast? with
  | none => none
  | some left =>
    match self.bubbleAbyss.dropLast.getLast? with
    | none => none
    | some right =>
      let abyss := self.bubbleAbyss.dropLast.dropLast
      match left, right with
      | .bubble leftBubble, .bubble rightBubble =>
        some { self with bubbleAbyss := abyss ++ [.bubble (wrapInt32 (leftBubble + rightBubble))] }
      | _, _ =>
        some { self with bubbleAbyss := abyss ++ [.doubleBubble (contents left ++ contents right)] }

/-- The functor `std::plus{}` on `Bubble`, in 32-bit two's-complement
arithmetic. -/
def plus (left right : Bubble) : Option Bubble :=
  some (wrapInt32 (left + right))

/-- The functor `std::minus{}` on `Bubble`, in 32-bit two's-complement
arithmetic. -/
def minus (left right : Bubble) : Option Bubble :=
  some (wrapInt32 (left - right))

/-- The functor `std::multiplies{}` on `Bubble`, in 32-bit two's-complement
arithmetic. -/
def multiplies (left right : Bubble) : Option Bubble :=
  some (wrapInt32 (left * right))

/-- The functor `std::divides{}` on `Bubble`: the quotient truncated toward
zero; undefined for a zero divisor and for the least `int32_t` divided by -1. -/
def divides (left right : Bubble) : Option Bubble :=
  if right = 0 ∨ (left = -2147483648 ∧ right = -1) then none
  else some (Int.tdiv left right)

/-- The functor `std::modulus{}` on `Bubble`: the remainder of the truncated
division; undefined where `divides` is. -/
def modulus (left right : Bubble) : Option Bubble :=
  if right = 0 ∨ (left = -2147483648 ∧ right = -1) then none
  else some (Int.tmod left right)

/-- The first loop of the both-double branch of `DoArithmeticOperation`:
`liter` and `riter` advance together while neither is at its end.  Returns
`result` and what is left from `liter` and from `riter` on. -/
def DoArithmeticOperation.pairs (operation : Bubble → Bubble → Option Bubble) :
    List Bubble → List Bubble → DoubleBubble →
      Option (DoubleBubble × List Bubble × List Bubble)
  | l :: fromLiter, r :: fromRiter, result =>
    match operation l r with
    | none => none
    | some value => DoArithmeticOperation.pairs operation fromLiter fromRiter (result ++ [value])
  | fromLiter, fromRiter, result => some (result, fromLiter, fromRiter)

/-- The third loop of the both-double branch,
`for (; riter != leftDouble.end(); riter++) result.push_back(*riter)`, with
`fromRiter` the elements of `rightDouble` from `riter` on.  `riter` points
into `rightDouble` but the bound is the end of `leftDouble`: the two are equal
only when both vectors are empty and own no storage (null iterators).  In every
other case the loop does not stop at `rightDouble.end()` and reads `*riter`
outside the vector. -/
def DoArithmeticOperation.rightTail (leftDouble rightDouble : DoubleBubble) :
    List Bubble → DoubleBubble → Option DoubleBubble
  | value :: fromRiter, result =>
    DoArithmeticOperation.rightTail leftDouble rightDouble fromRiter (result ++ [value])
  | [], result =>
    if leftDouble = [] ∧ rightDouble = [] then some result else none

/-- The call `std::transform(doubleBubble.begin(), doubleBubble.end(),
doubleBubble.begin(), f)` of the one-double branch, with
`f val = operation(val, single)`. -/
def DoArithmeticOperation.transform (operation : Bubble → Bubble → Option Bubble)
    (single : Bubble) : DoubleBubble → Option DoubleBubble
  | [] => some []
  | val :: rest =>
    match operation val single, DoArithmeticOperation.transform operation single rest with
    | some value, some tail => some (value :: tail)
    | _, _ => none

/-- The element `DoArithmeticOperation` pushes for the popped `left` and
`right`; `complimentaryOp` is `none` for `std::nullptr_t`. -/
def DoArithmeticOperation.combine (operation : Bubble → Bubble → Option Bubble)
    (complimentaryOp : Option (Bubble → Bubble → Option Bubble))
    (left right : AbyssEntry) : Option AbyssEntry :=
  match left, right with
  | .bubble leftBubble, .bubble rightBubble =>
    match complimentaryOp with
    | none =>
      match operation leftBubble rightBubble with
      | none => none
      | some value => some (.bubble value)
    | some complimentary =>
      match operation leftBubble rightBubble, complimentary leftBubble rightBubble with
      | some quotient, some remainder => some (.doubleBubble [quotient, remainder])
      | _, _ => none
  | .doubleBubble leftDouble, .doubleBubble rightDouble =>
    match DoArithmeticOperation.pairs operation leftDouble rightDouble [] with
    | none => none
    | some (result, fromLiter, fromRiter) =>
      match DoArithmeticOperation.rightTail leftDouble rightDouble fromRiter
          (result ++ fromLiter) with
      | none => none
      | some result => some (.doubleBubble result)
  | .bubble single, .doubleBubble doubleBubble =>
    match DoArithmeticOperation.transform operation single doubleBubble with
    | none => none
    | some result => some (.doubleBubble result)
  | .doubleBubble doubleBubble, .bubble single =>
    match DoArithmeticOperation.transform operation single doubleBubble with
    | none => none
    | some result => some (.doubleBubble result)

/-- The member template `DoArithmeticOperation`. -/
def DoArithmeticOperation (operation : Bubble → Bubble → Option Bubble)
    (complimentaryOp : Option (Bubble → Bubble → Option Bubble))
    (self : Interpreter) : Option Interpreter :=
  match self.bubbleAbyss.getLast? with
  | none => none
  | some left =>
    match self.bubbleAbyss.dropLast.getLast? with
    | none => none
    | some right =>
      match DoArithmeticOperation.combine operation complimentaryOp left right with
      | none => none
      | some pushed =>
        some { self with bubbleAbyss := self.bubbleAbyss.dropLast.dropLast ++ [pushed] }

/-- The handler `operator()(Add)`. -/
def Add (self : Interpreter) : Option Interpreter :=
  DoArithmeticOperation plus none self

/-- The handler `operator()(Subtract)`. -/
def Subtract (self : Interpreter) : Option Interpreter :=
  DoArithmeticOperation minus none self

/-- The handler `operator()(Multiply)`. -/
def Multiply (self : Interpreter) : Option Interpreter :=
  DoArithmeticOperation multiplies none self

/-- The handler `operator()(Divide)`. -/
def Divide (self : Interpreter) : Option Interpreter :=
  DoArithmeticOperation divides (some modulus) self

/-- The handler `operator()(Count)`: the top element is visited, not popped. -/
def Count (self : Interpreter) : Option Interpreter :=
  match self.bubbleAbyss.getLast? with
  | none => none
  | some (.bubble _) =>
    some { self with bubbleAbyss := self.bubbleAbyss ++ [.bubble 0] }
  | some (.doubleBubble doubleBubble) =>
    some { self with bubbleAbyss :=
      self.bubbleAbyss ++ [.bubble (wrapInt32 doubleBubble.length)] }

/-- The handler `operator()(Label)`. -/
def Label (self : Interpreter) (parameter : Nat) : Option Interpreter :=
  if parameter < NUM_LABELS then
    some { self with labels := self.labels.set parameter self.programCounter }
  else some self

/-- The handler `operator()(Jump)`. -/
def Jump (self : Interpreter) (parameter : Nat) : Option Interpreter :=
  if parameter < NUM_LABELS then
    match self.labels[parameter]? with
    | none => none
    | some target =>
      if target ≠ SIZE_MAX then some { self with programCounter := target }
      else some self
  else some self

/-- The member template `DoComparison`: `first` is read at index
`bubbleAbyss.size()` and `second` at index `bubbleAbyss.size() - 1`. -/
def DoComparison (comparison : Bubble → Bubble → Bool) (self : Interpreter) :
    Option Interpreter :=
  if self.bubbleAbyss.length ≤ 1 then
    some { self with programCounter := self.programCounter + 1 }
  else
    match self.bubbleAbyss[self.bubbleAbyss.length]?,
        self.bubbleAbyss[self.bubbleAbyss.length - 1]? with
    | some first, some second =>
      match first, second with
      | .bubble firstBubble, .bubble secondBubble =>
        if comparison firstBubble secondBubble then some self
        else some { self with programCounter := self.programCounter + 1 }
      | _, _ => some { self with programCounter := self.programCounter + 1 }
    | _, _ => none

/-- The handler `operator()(EqualTo)`. -/
def EqualTo (self : Interpreter) : Option Interpreter :=
  DoComparison (fun a b => decide (a = b)) self

/-- The handler `operator()(LessThan)`. -/
def LessThan (self : Interpreter) : Option Interpreter :=
  DoComparison (fun a b => decide (a < b)) self

/-- The handler `operator()(GreaterThan)`. -/
def GreaterThan (self : Interpreter) : Option Interpreter :=
  DoComparison (fun a b => decide (a > b)) self

/-- The handler `operator()(Terminate)`. -/
def Terminate (self : Interpreter) : Option Interpreter :=
  some { self with needsTermination := true }

/-- The call `std::visit(*this, currentCommand)`: the handler overload chosen
by the alternative `currentCommand` holds. -/
def visit (self : Interpreter) (currentCommand : CommandObject) : Option Interpreter :=
  match currentCommand with
  | .NoOp => self.NoOp
  | .Print => self.Print
  | .PrintNum => self.PrintNum
  | .Read => self.Read
  | .ReadNum => self.ReadNum
  | .Blow parameter => self.Blow parameter
  | .Submerge parameter => self.Submerge parameter
  | .Pop => self.Pop
  | .Duplicate => self.Duplicate
  | .Surround parameter => self.Surround parameter
  | .Merge => self.Merge
  | .Add => self.Add
  | .Subtract => self.Subtract
  | .Multiply => self.Multiply
  | .Divide => self.Divide
  | .Count => self.Count
  | .Label parameter => self.Label parameter
  | .Jump parameter => self.Jump parameter
  | .EqualTo => self.EqualTo
  | .LessThan => self.LessThan
  | .GreaterThan => self.GreaterThan
  | .Terminate => self.Terminate

/-- The loop condition of `Execute`. -/
def Execute.condition (self : Interpreter) : Bool :=
  decide (self.programCounter < self.program.length) && !self.needsTermination

/-- The loop body of `Execute`: one iteration. -/
def Execute.body (self : Interpreter) : Option Interpreter :=
  match self.program[self.programCounter]? with
  | none => none
  | some currentCommand => self.visit currentCommand

/-- The function `Execute`, cut off after `fuel` iterations of its loop: the
state when the loop has ended or the iterations are used up, `none` after a
fault. -/
def Execute : Nat → Interpreter → Option Interpreter
  | 0, self => some self
  | fuel + 1, self =>
    if Execute.condition self then
      match Execute.body self with
      | none => none
      | some next => Execute fuel next
    else some self

end Interpreter

/-! ## Canonical text, as the specification describes it -/

/-- The bit token of the specification: the two-letter token for a 1 bit, the
marker followed by its separator for a 0 bit. -/
def bitToken (bit : Bool) : List Char :=
  if bit then ['w', 'a'] else ['a', 'w', 'a', ' ']

/-- The canonical line of a 5-bit opcode value `v`, following the
specification: the marker immediately followed by the five bit tokens of `v`,
most significant bit first. -/
def canonicalLine (v : Nat) : List Char :=
  SENTINEL ++ bitToken (v.testBit 4) ++ bitToken (v.testBit 3) ++ bitToken (v.testBit 2)
    ++ bitToken (v.testBit 1) ++ bitToken (v.testBit 0)

/-! ## Auxiliary lemmas -/

theorem wrapInt32_of_inRange (x : Int) (hlo : -2147483648 ≤ x) (hhi : x < 2147483648) :
    wrapInt32 x = x := by
  unfold wrapInt32
  omega

theorem search_of_not_infix (pat : List Char) :
    ∀ line : List Char, ¬ pat <:+: line → search line pat = line.length := by
  intro line
  induction line with
  | nil => intro _; rfl
  | cons c rest ih =>
    intro h
    have hpre : pat.isPrefixOf (c :: rest) = false := by
      cases hb : pat.isPrefixOf (c :: rest) with
      | false => rfl
      | true =>
        exact absurd (List.IsPrefix.isInfix (List.isPrefixOf_iff_prefix.mp hb)) h
    have hrest : ¬ pat <:+: rest := fun hin =>
      h (hin.trans (List.suffix_cons c rest).isInfix)
    simp [search, hpre, ih hrest]

/-- The iteration bound of the first loop of `ReadAwaTalk` is never what ends
it: with at least `line.size() - i` iterations allowed, the loop condition is
false in the state returned. -/
theorem commandLoop_exits (line : List Char) :
    ∀ (fuel i bits command : Nat), line.length ≤ i + fuel →
      ¬ ((ReadAwaTalk.commandLoop line fuel i bits command).1 < line.length ∧
        (ReadAwaTalk.commandLoop line fuel i bits command).2.1 < CommandBits) := by
  intro fuel
  induction fuel with
  | zero =>
    intro i bits command h
    simp only [ReadAwaTalk.commandLoop]
    omega
  | succ n ih =>
    intro i bits command h
    unfold ReadAwaTalk.commandLoop
    split_ifs with hc h1 h2
    · exact ih _ _ _ (by omega)
    · exact ih _ _ _ (by omega)
    · exact ih _ _ _ (by omega)
    · exact hc

/-- The iteration bound of the second loop of `ReadAwaTalk` is never what ends
it: with at least `line.size() - i` iterations allowed, the position returned
is at or past the end of the line. -/
theorem parameterLoop_exits (line : List Char) (code : CommandObject) :
    ∀ (fuel i : Nat) (parameter : Int) (isNegative : Bool), line.length ≤ i + fuel →
      line.length ≤ (ReadAwaTalk.parameterLoop line code fuel i parameter isNegative).1 := by
  intro fuel
  induction fuel with
  | zero =>
    intro i parameter isNegative h
    simp only [ReadAwaTalk.parameterLoop]
    omega
  | succ n ih =>
    intro i parameter isNegative h
    unfold ReadAwaTalk.parameterLoop
    split_ifs with hc h1 h2 h3
    · exact ih _ _ _ (by omega)
    · exact ih _ _ _ (by omega)
    · exact ih _ _ _ (by omega)
    · exact ih _ _ _ (by omega)
    · omega

theorem getLast?_append_pair {α : Type} (rest : List α) (a b : α) :
    (rest ++ [a, b]).getLast? = some b := by
  simp

theorem dropLast_append_pair {α : Type} (rest : List α) (a b : α) :
    (rest ++ [a, b]).dropLast = rest ++ [a] := by
  have h : rest ++ [a, b] = (rest ++ [a]) ++ [b] := by simp
  rw [h, List.dropLast_concat]

theorem getLast?_append_single {α : Type} (rest : List α) (a : α) :
    (rest ++ [a]).getLast? = some a := by
  simp

theorem dropLast_append_single {α : Type} (rest : List α) (a : α) :
    (rest ++ [a]).dropLast = rest := by
  simp

/-- With `right` and `left` on top of `rest`, `DoArithmeticOperation` replaces
the two by the element `combine` yields. -/
theorem DoArithmeticOperation_of_combine
    (operation : Bubble → Bubble → Option Bubble)
    (complimentaryOp : Option (Bubble → Bubble → Option Bubble))
    (self : Interpreter) (rest : BubbleAbyss) (left right pushed : AbyssEntry)
    (h : self.bubbleAbyss = rest ++ [right, left])
    (hc : Interpreter.DoArithmeticOperation.combine operation complimentaryOp left right
      = some pushed) :
    Interpreter.DoArithmeticOperation operation complimentaryOp self
      = some { self with bubbleAbyss := rest ++ [pushed] } := by
  simp only [Interpreter.DoArithmeticOperation, h, getLast?_append_pair, dropLast_append_pair,
    getLast?_append_single, dropLast_append_single, hc]

/-- The `std::transform` of the one-double branch succeeds with the mapped
vector when the operation is defined on every element. -/
theorem transform_of_defined (operation : Bubble → Bubble → Option Bubble)
    (single : Bubble) (f : Bubble → Bubble) :
    ∀ doubleBubble : DoubleBubble,
      (∀ val ∈ doubleBubble, operation val single = some (f val)) →
      Interpreter.DoArithmeticOperation.transform operation single doubleBubble
        = some (doubleBubble.map f) := by
  intro doubleBubble
  induction doubleBubble with
  | nil => intro _; rfl
  | cons val rest ih =>
    intro h
    have hv : operation val single = some (f val) := h val (List.mem_cons_self val rest)
    have hr := ih (fun x hx => h x (List.mem_cons_of_mem val hx))
    simp [Interpreter.DoArithmeticOperation.transform, hv, hr]

theorem divides_of_defined (left right : Bubble) (h0 : right ≠ 0)
    (hov : ¬ (left = -2147483648 ∧ right = -1)) :
    Interpreter.divides left right = some (Int.tdiv left right) := by
  simp [Interpreter.divides, h0, hov]

theorem modulus_of_defined (left right : Bubble) (h0 : right ≠ 0)
    (hov : ¬ (left = -2147483648 ∧ right = -1)) :
    Interpreter.modulus left right = some (Int.tmod left right) := by
  simp [Interpreter.modulus, h0, hov]

/-- The loop of `Surround` run `top.size()` times on `rest` with `top` above it
pops exactly `top` and appends the contents of its elements, last element
first. -/
theorem Surround_loop_pops (rest : BubbleAbyss) :
    ∀ (top : BubbleAbyss) (newBubble : DoubleBubble),
      Interpreter.Surround.loop top.length (rest ++ top) newBubble
        = some (rest, newBubble ++ top.reverse.flatMap Interpreter.contents) := by
  intro top
  induction top using List.reverseRecOn with
  | nil => intro newBubble; simp [Interpreter.Surround.loop]
  | append_singleton l a ih =>
    intro newBubble
    have e : rest ++ (l ++ [a]) = (rest ++ l) ++ [a] := by simp
    simp only [List.length_append, List.length_singleton, Interpreter.Surround.loop, e,
      getLast?_append_single, dropLast_append_single, ih]
    simp [List.flatMap_cons, List.flatMap_append]

/-- The call `std::rotate(v.rbegin(), v.rbegin() + 1, v.rend())` on a non-empty
vector moves its last element to the front. -/
theorem rotateTop_whole (below : BubbleAbyss) (top : AbyssEntry) :
    Interpreter.rotateTop (below ++ [top]) (below ++ [top]).length = some (top :: below) := by
  have hlen : (below ++ [top]).reverse.length = (below ++ [top]).length := List.length_reverse _
  have h1 : 1 ≤ (below ++ [top]).length ∧ (below ++ [top]).length ≤ (below ++ [top]).length := by
    simp
  simp only [Interpreter.rotateTop, if_pos h1]
  rw [← hlen, List.take_length, List.drop_length]
  simp [List.rotate_cons_succ]

/-- No handler changes `program`, and no handler other than that of `Label`
changes `labels`. -/
theorem visit_frame (self next : Interpreter) (command : CommandObject)
    (h : self.visit command = some next) :
    next.program = self.program ∧
    ((∀ p, command ≠ CommandObject.Label p) → next.labels = self.labels) := by
  cases command <;>
    simp only [Interpreter.visit, Interpreter.NoOp, Interpreter.Print, Interpreter.PrintNum,
      Interpreter.Read, Interpreter.ReadNum, Interpreter.Blow, Interpreter.Submerge,
      Interpreter.Pop, Interpreter.Duplicate, Interpreter.Surround, Interpreter.Merge,
      Interpreter.Add, Interpreter.Subtract, Interpreter.Multiply, Interpreter.Divide,
      Interpreter.DoArithmeticOperation, Interpreter.Count, Interpreter.Label,
      Interpreter.Jump, Interpreter.EqualTo, Interpreter.LessThan, Interpreter.GreaterThan,
      Interpreter.DoComparison, Interpreter.Terminate] at h <;>
    (repeat' split at h) <;>
    first
      | contradiction
      | (cases h; simp)

/-- The handler of `Label` writes the current program counter into the slot
`parameter` when `parameter` is below `NUM_LABELS`, and nothing otherwise. -/
theorem visit_Label (self : Interpreter) (parameter : Nat) :
    self.visit (CommandObject.Label parameter)
      = some (if parameter < NUM_LABELS then
          { self with labels := self.labels.set parameter self.programCounter }
        else self) := by
  simp only [Interpreter.visit, Interpreter.Label]
  split <;> rfl

/-- The invariant of the label table: the program is the one given, there are
`NUM_LABELS` slots, and each is `SIZE_MAX` or an index into the program. -/
theorem Execute_preserves_labels (pProgram : Program) :
    ∀ (fuel : Nat) (self state : Interpreter),
      (self.program = pProgram ∧ self.labels.length = NUM_LABELS ∧
        ∀ slot ∈ self.labels, slot = SIZE_MAX ∨ slot < pProgram.length) →
      Interpreter.Execute fuel self = some state →
      (state.program = pProgram ∧ state.labels.length = NUM_LABELS ∧
        ∀ slot ∈ state.labels, slot = SIZE_MAX ∨ slot < pProgram.length) := by
  intro fuel
  induction fuel with
  | zero =>
    intro self state hinv h
    simp only [Interpreter.Execute, Option.some.injEq] at h
    subst h
    exact hinv
  | succ n ih =>
    intro self state hinv h
    unfold Interpreter.Execute at h
    split at h
    · rename_i hcond
      split at h
      · contradiction
      · rename_i next hbody
        refine ih next state ?_ h
        simp only [Interpreter.Execute.condition, Bool.and_eq_true, decide_eq_true_eq] at hcond
        have hpc : self.programCounter < pProgram.length := by
          rw [← hinv.1]; exact hcond.1
        unfold Interpreter.Execute.body at hbody
        split at hbody
        · contradiction
        · rename_i currentCommand _
          have hframe := visit_frame self next currentCommand hbody
          refine ⟨hframe.1.trans hinv.1, ?_⟩
          by_cases hl : ∃ p, currentCommand = CommandObject.Label p
          · obtain ⟨p, hp⟩ := hl
            subst hp
            rw [visit_Label] at hbody
            simp only [Option.some.injEq] at hbody
            subst hbody
            split
            · refine ⟨by simp [hinv.2.1], ?_⟩
              intro slot hslot
              rcases List.mem_or_eq_of_mem_set hslot with hm | he
              · exact hinv.2.2 slot hm
              · exact Or.inr (he ▸ hpc)
            · exact hinv.2
          · have hsame : next.labels = self.labels :=
              hframe.2 (fun p hp => hl ⟨p, hp⟩)
            rw [hsame]
            exact hinv.2
    · simp only [Option.some.injEq] at h
      subst h
      exact hinv

/-- The parameter scan of `ReadAwaTalk` keeps `parameter` at 0 for a signed
parameter and the negative flag clear for an unsigned one. -/
theorem parameterLoop_invariant (line : List Char) (code : CommandObject) :
    ∀ (fuel i : Nat) (parameter : Int) (isNegative : Bool),
      (HasSignedParameter code = true → parameter = 0) →
      (HasSignedParameter code = false → isNegative = false) →
      (HasSignedParameter code = true →
        (ReadAwaTalk.parameterLoop line code fuel i parameter isNegative).2.1 = 0) ∧
      (HasSignedParameter code = false →
        (ReadAwaTalk.parameterLoop line code fuel i parameter isNegative).2.2 = false) := by
  intro fuel
  induction fuel with
  | zero =>
    intro i parameter isNegative hs hu
    exact ⟨hs, hu⟩
  | succ n ih =>
    intro i parameter isNegative hs hu
    unfold ReadAwaTalk.parameterLoop
    split_ifs with hc h1 h2 h3
    · exact ih _ _ _ hs (fun hf => by simp [hf] at h2)
    · exact ih _ _ _ (fun ht => absurd ht h2) hu
    · refine ih _ _ _ (fun ht => ?_) hu
      rw [hs ht]; rfl
    · exact ih _ _ _ hs hu
    · exact ⟨hs, hu⟩

/-- What `ReadAwaTalk` multiplies out at the end of the parameter scan is 0. -/
theorem parameterLoop_negated_zero (line : List Char) (code : CommandObject)
    (fuel i : Nat) :
    wrapInt32 ((ReadAwaTalk.parameterLoop line code fuel i 0 false).2.1 *
      -(if (ReadAwaTalk.parameterLoop line code fuel i 0 false).2.2 then 1 else 0)) = 0 := by
  have hinv := parameterLoop_invariant line code fuel i 0 false (fun _ => rfl) (fun _ => rfl)
  cases hsig : HasSignedParameter code with
  | true => rw [hinv.1 hsig]; simp [wrapInt32]
  | false => rw [hinv.2 hsig]; simp [wrapInt32]

/-- The result of `ReadAwaTalk` either carries no parameter or is some command
with its parameter set to 0. -/
theorem ReadAwaTalk_shape (line : List Char) :
    HasParameter (ReadAwaTalk line) = false ∨
    ∃ code, ReadAwaTalk line = SetParameter code 0 := by
  unfold ReadAwaTalk
  simp only [parameterLoop_negated_zero]
  split_ifs with h1 h2
  · left; rfl
  · left; simpa using h2
  · right
    exact ⟨_, rfl⟩

/-- An iteration of the `Execute` loop on a `NoOp` returns the state it was
given, whatever that state is. -/
theorem Execute_body_NoOp (self : Interpreter)
    (h : self.program[self.programCounter]? = some CommandObject.NoOp) :
    Interpreter.Execute.body self = some self := by
  simp [Interpreter.Execute.body, h, Interpreter.visit, Interpreter.NoOp]

/-! ## The execution loop -/

/-- C1 (the code at the failing input): on the one-instruction program `NoOp`,
started in the constructor's state, the loop condition of `Execute` holds and
one iteration returns the very same state, program counter still 0; so does
any number of iterations: the loop never leaves the `NoOp`. -/
theorem C1_noop_iteration_keeps_programCounter :
    Interpreter.Execute.condition (Interpreter.new [CommandObject.NoOp]) = true ∧
    Interpreter.Execute.body (Interpreter.new [CommandObject.NoOp])
      = some (Interpreter.new [CommandObject.NoOp]) ∧
    (Interpreter.new [CommandObject.NoOp]).programCounter = 0 ∧
    ∀ fuel : Nat, Interpreter.Execute fuel (Interpreter.new [CommandObject.NoOp])
      = some (Interpreter.new [CommandObject.NoOp]) := by
  refine ⟨by decide, by decide, rfl, ?_⟩
  intro fuel
  induction fuel with
  | zero => rfl
  | succ n ih =>
    have hc : Interpreter.Execute.condition (Interpreter.new [CommandObject.NoOp]) = true := by
      decide
    have hb : Interpreter.Execute.body (Interpreter.new [CommandObject.NoOp])
        = some (Interpreter.new [CommandObject.NoOp]) := by decide
    simp only [Interpreter.Execute, hc, hb, if_true]
    exact ih

/-! ## The decoder -/

/-- C2 (the code at the failing input): the canonical line of 0x1F is the
marker followed by five "wa"; the table assigns `Terminate` to 0x1F, but
`ReadAwaTalk` returns `Blow` with parameter 0 on that line.  None of the 32
canonical lines decodes to the opcode of its value. -/
theorem C2_canonical_terminate_decodes_to_blow :
    canonicalLine 0x1F = "awawawawawawa".toList ∧
    CommandFromInteger 0x1F = CommandObject.Terminate ∧
    ReadAwaTalk (canonicalLine 0x1F) = CommandObject.Blow 0 ∧
    ReadAwaTalk.commandLoop (canonicalLine 0x1F) 13 3 0 0 = (14, 3, 5) ∧
    (List.range 32).filter
      (fun v => decide (ReadAwaTalk (canonicalLine v) = CommandFromInteger v)) = [] := by
  refine ⟨by decide, by decide, by decide, by decide, by decide⟩

/-- C3 (the code at the failing input): on the line `awaawa  awa  wa wa awa  wa`
the opcode scan ends at position 24 with the value 6 (`Submerge`, an unsigned
parameter), the parameter scan reads exactly one "wa" token and accumulates the
magnitude 1 with the negative flag clear, and `ReadAwaTalk` returns `Submerge`
with parameter 0. -/
theorem C3_single_wa_parameter_is_zero :
    ReadAwaTalk.commandLoop "awaawa  awa  wa wa awa  wa".toList 26 3 0 0 = (24, 5, 6) ∧
    ReadAwaTalk.parameterLoop "awaawa  awa  wa wa awa  wa".toList (CommandObject.Submerge 0)
      26 24 0 false = (27, 1, false) ∧
    ReadAwaTalk "awaawa  awa  wa wa awa  wa".toList = CommandObject.Submerge 0 := by
  refine ⟨by decide, by decide, by decide⟩

/-- C4: `CommandFromInteger` maps each of the 22 assigned values to the opcode
the table names for it and every other value to `NoOp`; `HasParameter` holds
exactly for `Blow`, `Submerge`, `Surround`, `Label` and `Jump`, and
`HasSignedParameter` exactly for `Blow`. -/
theorem C4_opcode_table :
    CommandFromInteger 0x00 = CommandObject.NoOp ∧
    CommandFromInteger 0x01 = CommandObject.Print ∧
    CommandFromInteger 0x02 = CommandObject.PrintNum ∧
    CommandFromInteger 0x03 = CommandObject.Read ∧
    CommandFromInteger 0x04 = CommandObject.ReadNum ∧
    CommandFromInteger 0x05 = CommandObject.Blow 0 ∧
    CommandFromInteger 0x06 = CommandObject.Submerge 0 ∧
    CommandFromInteger 0x07 = CommandObject.Pop ∧
    CommandFromInteger 0x08 = CommandObject.Duplicate ∧
    CommandFromInteger 0x09 = CommandObject.Surround 0 ∧
    CommandFromInteger 0x0A = CommandObject.Merge ∧
    CommandFromInteger 0x0B = CommandObject.Add ∧
    CommandFromInteger 0x0C = CommandObject.Subtract ∧
    CommandFromInteger 0x0D = CommandObject.Multiply ∧
    CommandFromInteger 0x0E = CommandObject.Divide ∧
    CommandFromInteger 0x0F = CommandObject.Count ∧
    CommandFromInteger 0x10 = CommandObject.Label 0 ∧
    CommandFromInteger 0x11 = CommandObject.Jump 0 ∧
    CommandFromInteger 0x12 = CommandObject.EqualTo ∧
    CommandFromInteger 0x13 = CommandObject.LessThan ∧
    CommandFromInteger 0x14 = CommandObject.GreaterThan ∧
    CommandFromInteger 0x1F = CommandObject.Terminate ∧
    (∀ value : Nat, (0x15 ≤ value ∧ value ≤ 0x1E) ∨ 0x1F < value →
      CommandFromInteger value = CommandObject.NoOp) ∧
    (∀ command : CommandObject, HasParameter command = true ↔
      (∃ p, command = CommandObject.Blow p) ∨ (∃ p, command = CommandObject.Submerge p) ∨
      (∃ p, command = CommandObject.Surround p) ∨ (∃ p, command = CommandObject.Label p) ∨
      (∃ p, command = CommandObject.Jump p)) ∧
    (∀ command : CommandObject, HasSignedParameter command = true ↔
      ∃ p, command = CommandObject.Blow p) := by
  refine ⟨rfl, rfl, rfl, rfl, rfl, rfl, rfl, rfl, rfl, rfl, rfl, rfl, rfl, rfl, rfl, rfl,
    rfl, rfl, rfl, rfl, rfl, rfl, ?_, ?_, ?_⟩
  · intro value h
    simp only [CommandFromInteger, alternatives, CommandFromIntegerFrom, CommandObject.VALUE]
    have h0 : ∀ k : Nat, k ≤ 0x14 ∨ k = 0x1F → ¬ k = value := by
      intro k hk; omega
    simp [h0]
  · intro command
    cases command <;> simp [HasParameter, CommandObject.HAS_PARAMETER]
  · intro command
    cases command <;> simp [HasSignedParameter]

/-- C5: for every line that does not contain "awa" as a contiguous substring
(the empty line included), `ReadAwaTalk` returns the `NoOp` instruction. -/
theorem C5_no_marker_decodes_to_noop (line : List Char)
    (h : ¬ ['a', 'w', 'a'] <:+: line) : ReadAwaTalk line = CommandObject.NoOp := by
  have hs : search line SENTINEL = line.length := search_of_not_infix SENTINEL line h
  simp [ReadAwaTalk, hs]

/-- C5 at the empty line and at a line of "wa" tokens and separators. -/
theorem C5_no_marker_decodes_to_noop_witness :
    (¬ ['a', 'w', 'a'] <:+: ([] : List Char)) ∧ ReadAwaTalk [] = CommandObject.NoOp ∧
    (¬ ['a', 'w', 'a'] <:+: "wa wa aw".toList) ∧
    ReadAwaTalk "wa wa aw".toList = CommandObject.NoOp :=
  ⟨by decide, C5_no_marker_decodes_to_noop [] (by decide), by decide,
    C5_no_marker_decodes_to_noop "wa wa aw".toList (by decide)⟩

/-! ## Arithmetic on the abyss -/

/-- C6: when the top two elements of the abyss are the scalars `left` (top) and
`right` (beneath), `Add`, `Subtract` and `Multiply` replace the two by the one
scalar `left + right`, `left - right`, `left * right` in 32-bit arithmetic, and
`Divide`, when `right` is not 0 and the quotient does not overflow, replaces
them by the collection `[left / right, left % right]` with division truncating
toward zero; the elements below (and the rest of the state) are unchanged. -/
theorem C6_scalar_arithmetic (self : Interpreter) (rest : BubbleAbyss) (left right : Bubble)
    (h : self.bubbleAbyss = rest ++ [AbyssEntry.bubble right, AbyssEntry.bubble left]) :
    self.Add = some { self with
      bubbleAbyss := rest ++ [AbyssEntry.bubble (wrapInt32 (left + right))] } ∧
    self.Subtract = some { self with
      bubbleAbyss := rest ++ [AbyssEntry.bubble (wrapInt32 (left - right))] } ∧
    self.Multiply = some { self with
      bubbleAbyss := rest ++ [AbyssEntry.bubble (wrapInt32 (left * right))] } ∧
    (right ≠ 0 → ¬ (left = -2147483648 ∧ right = -1) →
      self.Divide = some { self with
        bubbleAbyss := rest ++ [AbyssEntry.doubleBubble
          [Int.tdiv left right, Int.tmod left right]] }) := by
  refine ⟨?_, ?_, ?_, ?_⟩
  · exact DoArithmeticOperation_of_combine _ _ self rest _ _ _ h rfl
  · exact DoArithmeticOperation_of_combine _ _ self rest _ _ _ h rfl
  · exact DoArithmeticOperation_of_combine _ _ self rest _ _ _ h rfl
  · intro h0 hov
    refine DoArithmeticOperation_of_combine _ _ self rest _ _ _ h ?_
    simp [Interpreter.DoArithmeticOperation.combine, divides_of_defined left right h0 hov,
      modulus_of_defined left right h0 hov]

/-- C6 at the abyss `[4, 2, -7]` (top last): `left = -7`, `right = 2`. -/
theorem C6_scalar_arithmetic_witness :
    ({ Interpreter.new [] with
        bubbleAbyss := [AbyssEntry.bubble 4, AbyssEntry.bubble 2, AbyssEntry.bubble (-7)] }
      : Interpreter).Add
      = some { Interpreter.new [] with
          bubbleAbyss := [AbyssEntry.bubble 4, AbyssEntry.bubble (-5)] } ∧
    ({ Interpreter.new [] with
        bubbleAbyss := [AbyssEntry.bubble 4, AbyssEntry.bubble 2, AbyssEntry.bubble (-7)] }
      : Interpreter).Subtract
      = some { Interpreter.new [] with
          bubbleAbyss := [AbyssEntry.bubble 4, AbyssEntry.bubble (-9)] } ∧
    ({ Interpreter.new [] with
        bubbleAbyss := [AbyssEntry.bubble 4, AbyssEntry.bubble 2, AbyssEntry.bubble (-7)] }
      : Interpreter).Multiply
      = some { Interpreter.new [] with
          bubbleAbyss := [AbyssEntry.bubble 4, AbyssEntry.bubble (-14)] } ∧
    ({ Interpreter.new [] with
        bubbleAbyss := [AbyssEntry.bubble 4, AbyssEntry.bubble 2, AbyssEntry.bubble (-7)] }
      : Interpreter).Divide
      = some { Interpreter.new [] with
          bubbleAbyss := [AbyssEntry.bubble 4, AbyssEntry.doubleBubble [-3, -1]] } := by
  have h := C6_scalar_arithmetic
    { Interpreter.new [] with
      bubbleAbyss := [AbyssEntry.bubble 4, AbyssEntry.bubble 2, AbyssEntry.bubble (-7)] }
    [AbyssEntry.bubble 4] (-7) 2 rfl
  exact ⟨h.1, h.2.1, h.2.2.1, h.2.2.2 (by decide) (by decide)⟩

/-- C7 (as stated, refuted): from the empty abyss the handlers of `Blow(7)`,
`Blow(2)` and `Divide` do not leave the abyss `[[3, 1]]`. -/
theorem C7_scenario_is_not_3_1 :
    ¬ ((((Interpreter.new []).Blow 7).bind (fun s => s.Blow 2)).bind
        (fun s => s.Divide)).map (fun s => s.bubbleAbyss)
      = some [AbyssEntry.doubleBubble [3, 1]] := by
  decide

/-- C7 (amended): from the empty abyss the handlers of `Blow(7)`, `Blow(2)` and
`Divide` leave the abyss holding exactly one element, the collection `[0, 2]`:
the top (second-pushed) value 2 divided by the first-pushed value 7, with its
remainder; a following `Count` pushes the scalar 2 on top of it. -/
theorem C7_scenario_divides_top_by_second :
    ((((Interpreter.new []).Blow 7).bind (fun s => s.Blow 2)).bind
        (fun s => s.Divide)).map (fun s => s.bubbleAbyss)
      = some [AbyssEntry.doubleBubble [0, 2]] ∧
    (((((Interpreter.new []).Blow 7).bind (fun s => s.Blow 2)).bind
        (fun s => s.Divide)).bind (fun s => s.Count)).map (fun s => s.bubbleAbyss)
      = some [AbyssEntry.doubleBubble [0, 2], AbyssEntry.bubble 2] := by
  refine ⟨by decide, by decide⟩

/-- C8 (the code at the failing input): with the collection `[10]` on top of
the collection `[1, 2]`, the pairwise loop of `Add` produces `[11]` and leaves
`2` unconsumed, and the loop over the rest of `rightDouble`, bounded by the end
of `leftDouble`, reads outside `rightDouble`: no result is pushed.  The same
happens with the lengths swapped and with equal lengths. -/
theorem C8_collections_read_outside :
    Interpreter.DoArithmeticOperation.pairs Interpreter.plus [10] [1, 2] []
      = some ([11], [], [2]) ∧
    Interpreter.DoArithmeticOperation.rightTail [10] [1, 2] [2] [11] = none ∧
    ({ Interpreter.new [] with
        bubbleAbyss := [AbyssEntry.doubleBubble [1, 2], AbyssEntry.doubleBubble [10]] }
      : Interpreter).Add = none ∧
    ({ Interpreter.new [] with
        bubbleAbyss := [AbyssEntry.doubleBubble [10], AbyssEntry.doubleBubble [1, 2]] }
      : Interpreter).Add = none ∧
    ({ Interpreter.new [] with
        bubbleAbyss := [AbyssEntry.doubleBubble [1], AbyssEntry.doubleBubble [2]] }
      : Interpreter).Add = none := by
  refine ⟨by decide, by decide, by decide, by decide, by decide⟩

/-- C9 (as stated, refuted): with the scalar 0 and the collection `[10, -7]` as
the top two elements, in either order, `Divide` divides an element by zero and
pushes no collection at all; the same with the scalar -1 and a collection
holding the least `int32_t`, whose quotient overflows. -/
theorem C9_divide_by_zero_scalar_pushes_nothing :
    ({ Interpreter.new [] with
        bubbleAbyss := [AbyssEntry.bubble 0, AbyssEntry.doubleBubble [10, -7]] }
      : Interpreter).Divide = none ∧
    ({ Interpreter.new [] with
        bubbleAbyss := [AbyssEntry.doubleBubble [10, -7], AbyssEntry.bubble 0] }
      : Interpreter).Divide = none ∧
    ({ Interpreter.new [] with
        bubbleAbyss := [AbyssEntry.bubble (-1), AbyssEntry.doubleBubble [-2147483648]] }
      : Interpreter).Divide = none ∧
    ¬ ∃ result : DoubleBubble,
      ({ Interpreter.new [] with
          bubbleAbyss := [AbyssEntry.bubble 0, AbyssEntry.doubleBubble [10, -7]] }
        : Interpreter).Divide
        = some { Interpreter.new [] with bubbleAbyss := [AbyssEntry.doubleBubble result] } := by
  have h : ({ Interpreter.new [] with
        bubbleAbyss := [AbyssEntry.bubble 0, AbyssEntry.doubleBubble [10, -7]] }
      : Interpreter).Divide = none := by decide
  refine ⟨h, by decide, by decide, ?_⟩
  rintro ⟨result, hr⟩
  rw [h] at hr
  exact Option.noConfusion hr

/-- C9 (amended): when the top two elements of the abyss are one scalar `s` and
one collection `c`, whichever of the two is on top, `Add`, `Subtract` and
`Multiply` replace them by the collection of the `op(c[i], s)`, the element of
`c` being the left operand and `s` the right, of the same length as `c`; so
does `Divide`, with the quotients only, when every division `c[i] / s` is
defined (`s` is not 0 and no element is the least `int32_t` with `s = -1`). -/
theorem C9_scalar_with_collection (self : Interpreter) (rest : BubbleAbyss)
    (s : Bubble) (c : DoubleBubble)
    (h : self.bubbleAbyss = rest ++ [AbyssEntry.bubble s, AbyssEntry.doubleBubble c] ∨
      self.bubbleAbyss = rest ++ [AbyssEntry.doubleBubble c, AbyssEntry.bubble s]) :
    self.Add = some { self with bubbleAbyss :=
      rest ++ [AbyssEntry.doubleBubble (c.map (fun x => wrapInt32 (x + s)))] } ∧
    self.Subtract = some { self with bubbleAbyss :=
      rest ++ [AbyssEntry.doubleBubble (c.map (fun x => wrapInt32 (x - s)))] } ∧
    self.Multiply = some { self with bubbleAbyss :=
      rest ++ [AbyssEntry.doubleBubble (c.map (fun x => wrapInt32 (x * s)))] } ∧
    ((∀ x ∈ c, s ≠ 0 ∧ ¬ (x = -2147483648 ∧ s = -1)) →
      self.Divide = some { self with bubbleAbyss :=
        rest ++ [AbyssEntry.doubleBubble (c.map (fun x => Int.tdiv x s))] }) ∧
    (c.map (fun x => wrapInt32 (x + s))).length = c.length ∧
    (c.map (fun x => wrapInt32 (x - s))).length = c.length ∧
    (c.map (fun x => wrapInt32 (x * s))).length = c.length ∧
    (c.map (fun x => Int.tdiv x s)).length = c.length := by
  have key : ∀ (operation : Bubble → Bubble → Option Bubble)
      (complimentaryOp : Option (Bubble → Bubble → Option Bubble)) (f : Bubble → Bubble),
      (∀ val ∈ c, operation val s = some (f val)) →
      Interpreter.DoArithmeticOperation operation complimentaryOp self
        = some { self with bubbleAbyss := rest ++ [AbyssEntry.doubleBubble (c.map f)] } := by
    intro operation complimentaryOp f hf
    have ht := transform_of_defined operation s f c hf
    rcases h with h | h
    · refine DoArithmeticOperation_of_combine _ _ self rest _ _ _ h ?_
      simp [Interpreter.DoArithmeticOperation.combine, ht]
    · refine DoArithmeticOperation_of_combine _ _ self rest _ _ _ h ?_
      simp [Interpreter.DoArithmeticOperation.combine, ht]
  refine ⟨?_, ?_, ?_, ?_, by simp, by simp, by simp, by simp⟩
  · exact key Interpreter.plus none _ (fun _ _ => rfl)
  · exact key Interpreter.minus none _ (fun _ _ => rfl)
  · exact key Interpreter.multiplies none _ (fun _ _ => rfl)
  · intro hdef
    exact key Interpreter.divides (some Interpreter.modulus) _
      (fun x hx => divides_of_defined x s (hdef x hx).1 (hdef x hx).2)

/-- C9 (amended) with the collection `[10, -7]` on top of the scalar 5, and
with the scalar 5 on top of the collection `[10, -7]`. -/
theorem C9_scalar_with_collection_witness :
    (({ Interpreter.new [] with
        bubbleAbyss := [AbyssEntry.bubble 5, AbyssEntry.doubleBubble [10, -7]] }
      : Interpreter).Subtract
      = some { Interpreter.new [] with bubbleAbyss := [AbyssEntry.doubleBubble [5, -12]] } ∧
    ({ Interpreter.new [] with
        bubbleAbyss := [AbyssEntry.bubble 5, AbyssEntry.doubleBubble [10, -7]] }
      : Interpreter).Divide
      = some { Interpreter.new [] with bubbleAbyss := [AbyssEntry.doubleBubble [2, -1]] }) ∧
    (({ Interpreter.new [] with
        bubbleAbyss := [AbyssEntry.doubleBubble [10, -7], AbyssEntry.bubble 5] }
      : Interpreter).Subtract
      = some { Interpreter.new [] with bubbleAbyss := [AbyssEntry.doubleBubble [5, -12]] } ∧
    ({ Interpreter.new [] with
        bubbleAbyss := [AbyssEntry.doubleBubble [10, -7], AbyssEntry.bubble 5] }
      : Interpreter).Divide
      = some { Interpreter.new [] with bubbleAbyss := [AbyssEntry.doubleBubble [2, -1]] }) := by
  have h1 := C9_scalar_with_collection
    { Interpreter.new [] with
      bubbleAbyss := [AbyssEntry.bubble 5, AbyssEntry.doubleBubble [10, -7]] }
    [] 5 [10, -7] (Or.inl rfl)
  have h2 := C9_scalar_with_collection
    { Interpreter.new [] with
      bubbleAbyss := [AbyssEntry.doubleBubble [10, -7], AbyssEntry.bubble 5] }
    [] 5 [10, -7] (Or.inr rfl)
  exact ⟨⟨h1.2.1, h1.2.2.2.1 (by decide)⟩, ⟨h2.2.1, h2.2.2.2.1 (by decide)⟩⟩

/-! ## Merge -/

/-- C10: when the abyss has at least two elements, `left` on top and `right`
beneath it, `Merge` pops both and pushes the one scalar `left + right` (32-bit
arithmetic) when both are scalars, and otherwise the one flat collection made
of the contents of `left` followed by the contents of `right`, a scalar
contributing itself and a collection its elements in order (an empty
collection contributes nothing); the elements below are unchanged. -/
theorem C10_merge (self : Interpreter) (rest : BubbleAbyss) (left right : AbyssEntry)
    (h : self.bubbleAbyss = rest ++ [right, left]) :
    self.Merge = some { self with bubbleAbyss := rest ++ [
      match left, right with
      | AbyssEntry.bubble l, AbyssEntry.bubble r => AbyssEntry.bubble (wrapInt32 (l + r))
      | AbyssEntry.bubble l, AbyssEntry.doubleBubble rs => AbyssEntry.doubleBubble (l :: rs)
      | AbyssEntry.doubleBubble ls, AbyssEntry.bubble r =>
        AbyssEntry.doubleBubble (ls ++ [r])
      | AbyssEntry.doubleBubble ls, AbyssEntry.doubleBubble rs =>
        AbyssEntry.doubleBubble (ls ++ rs)] } := by
  cases left <;> cases right <;>
    simp [Interpreter.Merge, h, Interpreter.contents]

/-- C10 on the abyss `[9, [], 4]` (top last): the scalar 4 merged with the
empty collection beneath it gives `[4]`, and 9 stays below. -/
theorem C10_merge_witness :
    ({ Interpreter.new [] with
        bubbleAbyss := [AbyssEntry.bubble 9, AbyssEntry.doubleBubble [], AbyssEntry.bubble 4] }
      : Interpreter).Merge
      = some { Interpreter.new [] with
          bubbleAbyss := [AbyssEntry.bubble 9, AbyssEntry.doubleBubble [4]] } :=
  C10_merge
    { Interpreter.new [] with
      bubbleAbyss := [AbyssEntry.bubble 9, AbyssEntry.doubleBubble [], AbyssEntry.bubble 4] }
    [AbyssEntry.bubble 9] (AbyssEntry.bubble 4) (AbyssEntry.doubleBubble []) rfl

/-- C11 (as stated, refuted): with the collection `[2, 3]` on top of the
scalar 1, `Merge` does not push `[1, 2, 3]`. -/
theorem C11_merge_scalar_beneath_is_not_prepended :
    ¬ ({ Interpreter.new [] with
        bubbleAbyss := [AbyssEntry.bubble 1, AbyssEntry.doubleBubble [2, 3]] }
      : Interpreter).Merge
      = some { Interpreter.new [] with bubbleAbyss := [AbyssEntry.doubleBubble [1, 2, 3]] } := by
  decide

/-- C11 (amended): with the collection `[x, y]` on top of the abyss and the
scalar `a` beneath it (so the scalar is popped second, as `right`), `Merge`
pushes the collection `[x, y, a]`: the contents of `left` first, then those of
`right`; the elements below are unchanged. -/
theorem C11_merge_scalar_beneath_is_appended (self : Interpreter) (rest : BubbleAbyss)
    (a x y : Bubble)
    (h : self.bubbleAbyss = rest ++ [AbyssEntry.bubble a, AbyssEntry.doubleBubble [x, y]]) :
    self.Merge = some { self with
      bubbleAbyss := rest ++ [AbyssEntry.doubleBubble [x, y, a]] } := by
  simp [Interpreter.Merge, h, Interpreter.contents]

/-- C11 (amended) at `a = 1`, `[x, y] = [2, 3]`. -/
theorem C11_merge_scalar_beneath_is_appended_witness :
    ({ Interpreter.new [] with
        bubbleAbyss := [AbyssEntry.bubble 1, AbyssEntry.doubleBubble [2, 3]] }
      : Interpreter).Merge
      = some { Interpreter.new [] with bubbleAbyss := [AbyssEntry.doubleBubble [2, 3, 1]] } :=
  C11_merge_scalar_beneath_is_appended
    { Interpreter.new [] with
      bubbleAbyss := [AbyssEntry.bubble 1, AbyssEntry.doubleBubble [2, 3]] }
    [] 1 2 3 rfl

/-! ## Surround and Submerge -/

/-- C12: when the abyss is `rest` with the `n` elements `top` above it,
`Surround(n)` removes exactly those `n` elements and pushes one flat collection,
the concatenation of their scalar contents in pop order (the contents of the old
top first, each collection's elements in their own order), leaving `rest`
unchanged; `Surround(0)` pushes an empty collection, and on `n` scalars the
collection holds exactly those `n` values, the old top first. -/
theorem C12_surround (self : Interpreter) (rest top : BubbleAbyss)
    (h : self.bubbleAbyss = rest ++ top) :
    self.Surround top.length = some { self with bubbleAbyss :=
      rest ++ [AbyssEntry.doubleBubble (top.reverse.flatMap Interpreter.contents)] } ∧
    self.Surround 0 = some { self with bubbleAbyss :=
      self.bubbleAbyss ++ [AbyssEntry.doubleBubble []] } ∧
    (∀ values : List Bubble, top = values.map AbyssEntry.bubble →
      self.Surround values.length = some { self with bubbleAbyss :=
        rest ++ [AbyssEntry.doubleBubble values.reverse] }) := by
  have main : self.Surround top.length = some { self with bubbleAbyss :=
      rest ++ [AbyssEntry.doubleBubble (top.reverse.flatMap Interpreter.contents)] } := by
    simp [Interpreter.Surround, h, Surround_loop_pops rest top []]
  refine ⟨main, by simp [Interpreter.Surround, Interpreter.Surround.loop], ?_⟩
  intro values hv
  have hl : values.length = top.length := by simp [hv]
  have hc : top.reverse.flatMap Interpreter.contents = values.reverse := by
    rw [hv, ← List.map_reverse]
    generalize values.reverse = vs
    induction vs with
    | nil => rfl
    | cons v vs ih => simp [List.flatMap_cons, Interpreter.contents, ih]
  rw [hl, main, hc]

/-- C12 on the abyss `[9, [1, 2], 3]` (top last) with `n = 2`. -/
theorem C12_surround_witness :
    ({ Interpreter.new [] with bubbleAbyss :=
        [AbyssEntry.bubble 9, AbyssEntry.doubleBubble [1, 2], AbyssEntry.bubble 3] }
      : Interpreter).Surround 2
      = some { Interpreter.new [] with bubbleAbyss :=
          [AbyssEntry.bubble 9, AbyssEntry.doubleBubble [3, 1, 2]] } :=
  (C12_surround
    { Interpreter.new [] with bubbleAbyss :=
        [AbyssEntry.bubble 9, AbyssEntry.doubleBubble [1, 2], AbyssEntry.bubble 3] }
    [AbyssEntry.bubble 9] [AbyssEntry.doubleBubble [1, 2], AbyssEntry.bubble 3] rfl).1

/-- C13: on a non-empty abyss `[b0, ..., b(n-1)]` (`b(n-1)` the top) and for a
parameter `p` that is 0 or exceeds `n - 1`, `Submerge(p)` yields
`[b(n-1), b0, ..., b(n-2)]`: the previous top becomes the new bottom and every
other element moves one position toward the top; a one-element abyss is
unchanged. -/
theorem C13_submerge_whole (self : Interpreter) (below : BubbleAbyss) (top : AbyssEntry)
    (p : Nat) (h : self.bubbleAbyss = below ++ [top]) (hp : p = 0 ∨ p > below.length) :
    self.Submerge p = some { self with bubbleAbyss := top :: below } ∧
    (below = [] → self.Submerge p = some self) := by
  have hcond : p > (self.bubbleAbyss.length + SIZE_MAX) % (SIZE_MAX + 1) ∨ p = 0 := by
    rcases hp with hp | hp
    · exact Or.inr hp
    · left
      have hlen : self.bubbleAbyss.length = below.length + 1 := by simp [h]
      have hmod : (below.length + 1 + SIZE_MAX) % (SIZE_MAX + 1) ≤ below.length := by
        have e : below.length + 1 + SIZE_MAX = below.length + (SIZE_MAX + 1) := by omega
        rw [e, Nat.add_mod_right]
        exact Nat.mod_le _ _
      rw [hlen]
      omega
  have hrot : Interpreter.rotateTop self.bubbleAbyss self.bubbleAbyss.length
      = some (top :: below) := by
    rw [h]
    exact rotateTop_whole below top
  have main : self.Submerge p = some { self with bubbleAbyss := top :: below } := by
    simp only [Interpreter.Submerge, if_pos hcond, hrot]
  refine ⟨main, ?_⟩
  intro hb
  rw [main]
  subst hb
  cases self
  simp_all

/-- C13 on the abyss `[1, 2, 3]` (top last) with `p = 0` and with `p = 7`. -/
theorem C13_submerge_whole_witness :
    ({ Interpreter.new [] with
        bubbleAbyss := [AbyssEntry.bubble 1, AbyssEntry.bubble 2, AbyssEntry.bubble 3] }
      : Interpreter).Submerge 0
      = some { Interpreter.new [] with
          bubbleAbyss := [AbyssEntry.bubble 3, AbyssEntry.bubble 1, AbyssEntry.bubble 2] } ∧
    ({ Interpreter.new [] with
        bubbleAbyss := [AbyssEntry.bubble 1, AbyssEntry.bubble 2, AbyssEntry.bubble 3] }
      : Interpreter).Submerge 7
      = some { Interpreter.new [] with
          bubbleAbyss := [AbyssEntry.bubble 3, AbyssEntry.bubble 1, AbyssEntry.bubble 2] } :=
  ⟨(C13_submerge_whole
      { Interpreter.new [] with
        bubbleAbyss := [AbyssEntry.bubble 1, AbyssEntry.bubble 2, AbyssEntry.bubble 3] }
      [AbyssEntry.bubble 1, AbyssEntry.bubble 2] (AbyssEntry.bubble 3) 0 rfl (Or.inl rfl)).1,
   (C13_submerge_whole
      { Interpreter.new [] with
        bubbleAbyss := [AbyssEntry.bubble 1, AbyssEntry.bubble 2, AbyssEntry.bubble 3] }
      [AbyssEntry.bubble 1, AbyssEntry.bubble 2] (AbyssEntry.bubble 3) 7 rfl
      (Or.inr (by decide))).1⟩

/-- C14 (the code at the failing inputs): on the abyss `[1, 2, 3]` (top last)
`Submerge(1)` rotates a window of one element and leaves the abyss as it is
(the top two are not swapped), and `Submerge(2)` rotates only the top two
elements, giving `[1, 3, 2]`, where a window of three would give `[3, 1, 2]`;
on `[1, 2, 3, 4]`, `Submerge(2)` leaves the third element from the top in
place. -/
theorem C14_submerge_window_is_parameter_elements :
    ({ Interpreter.new [] with
        bubbleAbyss := [AbyssEntry.bubble 1, AbyssEntry.bubble 2, AbyssEntry.bubble 3] }
      : Interpreter).Submerge 1
      = some { Interpreter.new [] with
          bubbleAbyss := [AbyssEntry.bubble 1, AbyssEntry.bubble 2, AbyssEntry.bubble 3] } ∧
    ({ Interpreter.new [] with
        bubbleAbyss := [AbyssEntry.bubble 1, AbyssEntry.bubble 2, AbyssEntry.bubble 3] }
      : Interpreter).Submerge 2
      = some { Interpreter.new [] with
          bubbleAbyss := [AbyssEntry.bubble 1, AbyssEntry.bubble 3, AbyssEntry.bubble 2] } ∧
    ({ Interpreter.new [] with
        bubbleAbyss := [AbyssEntry.bubble 1, AbyssEntry.bubble 2, AbyssEntry.bubble 3,
          AbyssEntry.bubble 4] }
      : Interpreter).Submerge 2
      = some { Interpreter.new [] with
          bubbleAbyss := [AbyssEntry.bubble 1, AbyssEntry.bubble 2, AbyssEntry.bubble 4,
            AbyssEntry.bubble 3] } := by
  refine ⟨by decide, by decide, by decide⟩

/-! ## Duplicate and Count -/

/-- C15 (the code at the failing input): on the abyss `[7, [1, 2]]` (top last)
`Duplicate` pushes `[1, 2]` but leaves the old top, which it moved from, as the
empty collection: the abyss becomes `[7, [], [1, 2]]`, not `[7, [1, 2], [1, 2]]`.
A scalar top is duplicated as claimed. -/
theorem C15_duplicate_empties_collection_top :
    ({ Interpreter.new [] with
        bubbleAbyss := [AbyssEntry.bubble 7, AbyssEntry.doubleBubble [1, 2]] }
      : Interpreter).Duplicate
      = some { Interpreter.new [] with
          bubbleAbyss := [AbyssEntry.bubble 7, AbyssEntry.doubleBubble [],
            AbyssEntry.doubleBubble [1, 2]] } ∧
    ({ Interpreter.new [] with bubbleAbyss := [AbyssEntry.bubble 7] } : Interpreter).Duplicate
      = some { Interpreter.new [] with
          bubbleAbyss := [AbyssEntry.bubble 7, AbyssEntry.bubble 7] } := by
  refine ⟨by decide, by decide⟩

/-- C16: on a non-empty abyss `Count` pushes one scalar, which becomes the new
top: 0 when the old top is a scalar, the number of elements (as a 32-bit
scalar: the number itself below 2^31) when the old top is a collection, 0 for
the empty collection; the inspected element and everything below it stay in
place, so the depth grows by exactly one. -/
theorem C16_count (self : Interpreter) (below : BubbleAbyss) (top : AbyssEntry)
    (h : self.bubbleAbyss = below ++ [top]) :
    self.Count = some { self with bubbleAbyss := below ++ [top,
      match top with
      | AbyssEntry.bubble _ => AbyssEntry.bubble 0
      | AbyssEntry.doubleBubble c => AbyssEntry.bubble (wrapInt32 c.length)] } ∧
    (∀ c : DoubleBubble, c.length < 2147483648 → wrapInt32 c.length = c.length) ∧
    wrapInt32 (([] : DoubleBubble).length) = 0 ∧
    (∀ next : Interpreter, self.Count = some next →
      next.bubbleAbyss.length = self.bubbleAbyss.length + 1) := by
  have main : self.Count = some { self with bubbleAbyss := below ++ [top,
      match top with
      | AbyssEntry.bubble _ => AbyssEntry.bubble 0
      | AbyssEntry.doubleBubble c => AbyssEntry.bubble (wrapInt32 c.length)] } := by
    cases top <;> simp [Interpreter.Count, h]
  refine ⟨main, ?_, by decide, ?_⟩
  · intro c hc
    exact wrapInt32_of_inRange _ (by omega) (by omega)
  · intro next hn
    rw [main] at hn
    cases hn
    simp [h]

/-- C16 on the abyss `[7, [4, 5, 6]]`, on `[7]` and on `[[]]` (top last). -/
theorem C16_count_witness :
    ({ Interpreter.new [] with
        bubbleAbyss := [AbyssEntry.bubble 7, AbyssEntry.doubleBubble [4, 5, 6]] }
      : Interpreter).Count
      = some { Interpreter.new [] with
          bubbleAbyss := [AbyssEntry.bubble 7, AbyssEntry.doubleBubble [4, 5, 6],
            AbyssEntry.bubble 3] } ∧
    ({ Interpreter.new [] with bubbleAbyss := [AbyssEntry.bubble 7] } : Interpreter).Count
      = some { Interpreter.new [] with
          bubbleAbyss := [AbyssEntry.bubble 7, AbyssEntry.bubble 0] } ∧
    ({ Interpreter.new [] with bubbleAbyss := [AbyssEntry.doubleBubble []] }
      : Interpreter).Count
      = some { Interpreter.new [] with
          bubbleAbyss := [AbyssEntry.doubleBubble [], AbyssEntry.bubble 0] } :=
  ⟨(C16_count
      { Interpreter.new [] with
        bubbleAbyss := [AbyssEntry.bubble 7, AbyssEntry.doubleBubble [4, 5, 6]] }
      [AbyssEntry.bubble 7] (AbyssEntry.doubleBubble [4, 5, 6]) rfl).1,
   (C16_count { Interpreter.new [] with bubbleAbyss := [AbyssEntry.bubble 7] }
      [] (AbyssEntry.bubble 7) rfl).1,
   (C16_count { Interpreter.new [] with bubbleAbyss := [AbyssEntry.doubleBubble []] }
      [] (AbyssEntry.doubleBubble []) rfl).1⟩

/-! ## Comparisons and output -/

/-- C17 (the code at the failing input): on the abyss `[5, 5]` `EqualTo` reads
`first` at index `bubbleAbyss.size()`, outside the abyss, and yields no state
(it does not fall through); the same on `[5, 6]`, and for `LessThan` and
`GreaterThan`.  With fewer than two elements the comparison skips. -/
theorem C17_comparison_reads_outside :
    ({ Interpreter.new [] with bubbleAbyss := [AbyssEntry.bubble 5, AbyssEntry.bubble 5] }
      : Interpreter).EqualTo = none ∧
    ({ Interpreter.new [] with bubbleAbyss := [AbyssEntry.bubble 5, AbyssEntry.bubble 6] }
      : Interpreter).EqualTo = none ∧
    ({ Interpreter.new [] with bubbleAbyss := [AbyssEntry.bubble 5, AbyssEntry.bubble 6] }
      : Interpreter).LessThan = none ∧
    ({ Interpreter.new [] with bubbleAbyss := [AbyssEntry.bubble 5, AbyssEntry.bubble 6] }
      : Interpreter).GreaterThan = none ∧
    ([AbyssEntry.bubble 5, AbyssEntry.bubble 5] : BubbleAbyss)[2]? = none ∧
    ({ Interpreter.new [] with bubbleAbyss := [AbyssEntry.bubble 5] } : Interpreter).EqualTo
      = some { Interpreter.new [] with
          bubbleAbyss := [AbyssEntry.bubble 5], programCounter := 1 } := by
  refine ⟨by decide, by decide, by decide, by decide, by decide, by decide⟩

/-- C18 (the code at the failing input): the table has 64 entries and the guard
of `GetAwascii` lets the value 64 through, so `awascii[64]` indexes outside the
table instead of giving the placeholder 'X'; every value from 0 to 63 gives its
table entry, and -1 and 65 give 'X'. -/
theorem C18_awascii_64_indexes_outside :
    awascii.length = 64 ∧
    GetAwascii 64 = none ∧
    GetAwascii 65 = some 'X' ∧
    GetAwascii (-1) = some 'X' ∧
    (List.range 64).all (fun v => decide (GetAwascii (v : Int) = awascii[v]?)) = true ∧
    (List.range 64).all (fun v => (awascii[v]?).isSome) = true := by
  refine ⟨by decide, by decide, by decide, by decide, by decide, by decide⟩

/-! ## The label table -/

/-- C19: in every state reached from the constructor's state (program counter
0, empty abyss, all 32 label slots `SIZE_MAX`) by iterations of the `Execute`
loop on any program, the table has 32 slots and each is the unset sentinel or
an index below the program's length; a handler other than that of `Label`
never changes the table, and the handler of `Label` writes the program counter
of the `Label` instruction itself (into the slot named, when below 32). -/
theorem C19_label_slots_in_range (pProgram : Program) (fuel : Nat) (state : Interpreter)
    (h : Interpreter.Execute fuel (Interpreter.new pProgram) = some state) :
    state.labels.length = NUM_LABELS ∧
    (∀ slot ∈ state.labels, slot = SIZE_MAX ∨ slot < pProgram.length) ∧
    (∀ (self next : Interpreter) (command : CommandObject),
      self.visit command = some next → (∀ p, command ≠ CommandObject.Label p) →
      next.labels = self.labels) ∧
    (∀ (self : Interpreter) (parameter : Nat),
      self.visit (CommandObject.Label parameter)
        = some (if parameter < NUM_LABELS then
            { self with labels := self.labels.set parameter self.programCounter }
          else self)) := by
  have hinit : (Interpreter.new pProgram).program = pProgram ∧
      (Interpreter.new pProgram).labels.length = NUM_LABELS ∧
      ∀ slot ∈ (Interpreter.new pProgram).labels, slot = SIZE_MAX ∨ slot < pProgram.length := by
    refine ⟨rfl, by simp [Interpreter.new], ?_⟩
    intro slot hslot
    left
    exact List.eq_of_mem_replicate hslot
  have hinv := Execute_preserves_labels pProgram fuel (Interpreter.new pProgram) state hinit h
  exact ⟨hinv.2.1, hinv.2.2, fun self next command hv hne => (visit_frame self next command hv).2 hne,
    visit_Label⟩

/-- C19 on the program `[Label(3)]` after one iteration: slot 3 holds 0, the
position of the `Label`, and every slot is unset or below the length 1. -/
theorem C19_label_slots_in_range_witness :
    Interpreter.Execute 1 (Interpreter.new [CommandObject.Label 3])
      = some { Interpreter.new [CommandObject.Label 3] with
          labels := (List.replicate NUM_LABELS SIZE_MAX).set 3 0 } ∧
    ∀ slot ∈ (List.replicate NUM_LABELS SIZE_MAX).set 3 0,
      slot = SIZE_MAX ∨ slot < [CommandObject.Label 3].length :=
  ⟨by decide,
   (C19_label_slots_in_range [CommandObject.Label 3] 1
      { Interpreter.new [CommandObject.Label 3] with
        labels := (List.replicate NUM_LABELS SIZE_MAX).set 3 0 } (by decide)).2.1⟩

/-! ## Decoded parameters -/

/-- C20: for every input line, a parameter-carrying instruction returned by
`ReadAwaTalk` (`Blow`, `Submerge`, `Surround`, `Label` or `Jump`) has the
parameter 0, whatever tokens follow the opcode bits: the accumulated value is
multiplied by the negated negative flag, which is 0 when the flag is clear, and
a signed parameter never accumulates a 1 bit. -/
theorem C20_decoded_parameter_is_zero (line : List Char) :
    (∀ p, ReadAwaTalk line = CommandObject.Blow p → p = 0) ∧
    (∀ p, ReadAwaTalk line = CommandObject.Submerge p → p = 0) ∧
    (∀ p, ReadAwaTalk line = CommandObject.Surround p → p = 0) ∧
    (∀ p, ReadAwaTalk line = CommandObject.Label p → p = 0) ∧
    (∀ p, ReadAwaTalk line = CommandObject.Jump p → p = 0) := by
  rcases ReadAwaTalk_shape line with hno | ⟨code, hcode⟩
  · refine ⟨?_, ?_, ?_, ?_, ?_⟩ <;> intro p hp <;>
      simp [hp, HasParameter, CommandObject.HAS_PARAMETER] at hno
  · refine ⟨?_, ?_, ?_, ?_, ?_⟩ <;> intro p hp <;> rw [hcode] at hp <;>
      cases code <;> simp [SetParameter, toInt8, toUInt8] at hp <;> omega

end Awa5pp
